import Mathlib

/-!
Verification of the Lite.StateMachine core (the `src-firmware` variant:
`State.h`, `StateMachine.h`, `StateMachine.cpp`) against its design
specification.

Embedding conventions:
* C function pointers (`CallbackHandler`) are abstract tags; `none` models a
  NULL pointer, `some k` a bound handler with identity `k`.
* `int` members are `Int`.  A member an executed constructor leaves
  uninitialized (indeterminate in C++) is modelled as an `Option` that the
  constructor sets to `none` and that only explicit writes fill.
* Methods are state-passing functions: a `State&`-returning builder method
  becomes `State → … → State`; a method returning `bool` returns the updated
  receiver paired with the boolean.
-/

/-- `typedef void (*CallbackHandler) ()` (State.h:10): a nullable function
pointer, modelled as an optional abstract handler tag. -/
abbrev CallbackHandler := Option Nat

/-- The data members of `class State` (State.h:14-103).
`_defaultNextState` and `_timeoutDuration` have no default member initializer
and the two-argument constructor does not set them, so they are `Option`s that
start out `none`; `_nextStates` is a `std::list<int>`. -/
structure State where
  _id : Int
  _name : String
  _defaultNextState : Option Int
  _nextStates : List Int
  _timeoutDuration : Option Int
  OnEnterHandler : CallbackHandler
  OnTimeoutHandler : CallbackHandler
  OnExitHandler : CallbackHandler
  deriving DecidableEq

/-- `State(int stateId, std::string name)` (State.h:51-55): sets `_id` and
`_name`; `_nextStates` is default-constructed empty; handlers keep their NULL
member initializers; `_defaultNextState` and `_timeoutDuration` stay
indeterminate (`none`). -/
def State.mkIdName (stateId : Int) (name : String) : State :=
  { _id := stateId
    _name := name
    _defaultNextState := none
    _nextStates := []
    _timeoutDuration := none
    OnEnterHandler := none
    OnTimeoutHandler := none
    OnExitHandler := none }

/-- `State::AllowNext(const int nextStateId, bool isDefault = false)`
(State.h:57-65): pushes `nextStateId` onto `_nextStates` unconditionally, THEN
tests `_nextStates.size() == 0 || isDefault` (the size test runs after the
push, exactly as in the source) and on success overwrites
`_defaultNextState`. -/
def State.AllowNext (s : State) (nextStateId : Int) (isDefault : Bool) : State :=
  let s' := { s with _nextStates := s._nextStates ++ [nextStateId] }
  if s'._nextStates.length == 0 || isDefault then
    { s' with _defaultNextState := some nextStateId }
  else
    s'

/-- `State::OnEnter` (State.h:67-71): rebinds the enter handler. -/
def State.OnEnter (s : State) (methodHandler : CallbackHandler) : State :=
  { s with OnEnterHandler := methodHandler }

/-- `State::OnTimeout(CallbackHandler methodHandler, int msTimeout)`
(State.h:76-81): unconditionally stores `msTimeout` into `_timeoutDuration`
and rebinds the timeout handler; the source performs no validation of
`msTimeout` and cannot fail (it returns `*this`). -/
def State.OnTimeout (s : State) (methodHandler : CallbackHandler) (msTimeout : Int) : State :=
  { s with _timeoutDuration := some msTimeout, OnTimeoutHandler := methodHandler }

/-- `State::OnExit` (State.h:83-87): rebinds the exit handler. -/
def State.OnExit (s : State) (methodHandler : CallbackHandler) : State :=
  { s with OnExitHandler := methodHandler }

/-- The data members of `class StateMachine` (StateMachine.h:25-75).
`_currentState`/`_previousState` are `State*` pointers, modelled as the
optional pointed-to value (the code under src/ never writes through them). -/
structure StateMachine where
  _isInitialized : Bool
  _currentState : Option State
  _previousState : Option State
  _states : List State
  _dotGraphViz : String
  deriving DecidableEq

/-- A freshly constructed machine, from the in-class member initializers
(StateMachine.h:30-36): uninitialized, no current/previous state, empty state
collection. -/
def StateMachine.new : StateMachine :=
  { _isInitialized := false
    _currentState := none
    _previousState := none
    _states := []
    _dotGraphViz := "" }

/-- `StateMachine::Initialize()` (StateMachine.cpp:11-24): when not yet
initialized it clears `_states` and sets `_isInitialized = true`; it then
returns `_isInitialized`, which is `true` on both paths.  Nothing in the body
can fail. -/
def StateMachine.Initialize (m : StateMachine) : StateMachine × Bool :=
  if !m._isInitialized then
    let m' := { m with _states := [], _isInitialized := true }
    (m', m'._isInitialized)
  else
    (m, m._isInitialized)

/-- `StateMachine::AddState(int stateId, std::string name)`
(StateMachine.cpp:28-37): the body constructs a local `State(stateId, name)`
and returns it; the comment `// TODO: Add state to the collection` is accurate
and `_states` is never touched.  (The returned reference is to a local — the
spec's noted dangling-reference defect; the value it denoted is returned
here.) -/
def StateMachine.AddState (m : StateMachine) (stateId : Int) (name : String) :
    StateMachine × State :=
  (m, State.mkIdName stateId name)

/-- `StateMachine::WaitFor()` (StateMachine.cpp:39-58): calls `Initialize()`
when uninitialized; the `if (_currentState != NULL)` branch that follows has
an empty body — every timeout check and every callback invocation inside it is
commented out — so the method changes nothing else and invokes no handler.
Note the method takes no timestamp argument. -/
def StateMachine.WaitFor (m : StateMachine) : StateMachine :=
  if !m._isInitialized then (StateMachine.Initialize m).1 else m

/-- The spec's error kinds (§7). -/
inductive SMError where
  | DuplicateStateId
  | UnknownStateId
  | NoStatesDefined
  | NotStarted
  | InvalidTransitionSpec
  | InvalidTimeoutSpec
  | NoDefaultTransition
  | CallbackFailure
  deriving DecidableEq

/-- Modelled from the spec: the machine view of §3 that `Next` operates on.
`StateMachine::Next(int)` is declared (StateMachine.h:68) but has no
definition anywhere under src/, so the transition engine is modelled from the
spec's words: `states` a collection of `State`s keyed by id, `current` and
`previous` optional state ids, `enteredAt` the entry timestamp. -/
structure SpecMachine where
  states : List State
  current : Option Int
  previous : Option Int
  enteredAt : Int
  deriving DecidableEq

/-- Look up a state by id in the machine's collection. -/
def SpecMachine.findState (m : SpecMachine) (sid : Int) : Option State :=
  m.states.find? (fun s => s._id == sid)

/-- Result of one `Next` call: the machine afterwards, the handler tags
invoked in order, and `none` for success or the reported error. -/
structure NextOutcome where
  machine : SpecMachine
  fired : List Nat
  result : Option SMError
  deriving DecidableEq

/-- Modelled from the spec: `Next(targetId)` (§4.3), the core transition
primitive, whose source definition is missing.  1. fails `NotStarted` when
`current` is unset; 2. fails `InvalidTransitionSpec` when `targetId` is
neither in `current.allowedNext` nor equal to `current.id`, leaving the
machine untouched; 3. a self-loop is a no-op success firing nothing and not
resetting `enteredAt`; 4. otherwise it invokes `current.onExit` if bound, sets
`previous`, sets `current`, resets `enteredAt` to `now`, and invokes the new
state's `onEnter` if bound.  (The inner `none` branch is unreachable under the
spec invariant that `current` references a key of `states`.) -/
def SpecMachine.Next (m : SpecMachine) (targetId : Int) (now : Int) : NextOutcome :=
  match m.current with
  | none => { machine := m, fired := [], result := some SMError.NotStarted }
  | some curId =>
    match SpecMachine.findState m curId with
    | none => { machine := m, fired := [], result := some SMError.NotStarted }
    | some cur =>
      if targetId = curId then
        { machine := m, fired := [], result := none }
      else if targetId ∈ cur._nextStates then
        { machine :=
            { m with previous := some curId, current := some targetId, enteredAt := now }
          fired := cur.OnExitHandler.toList ++
            (Option.bind (SpecMachine.findState m targetId) (fun t => t.OnEnterHandler)).toList
          result := none }
      else
        { machine := m, fired := [], result := some SMError.InvalidTransitionSpec }

/-! Concrete fixtures used by witnesses and counterexamples. -/

/-- State A of the C1 witness machine: id 1, allowed next {2}. -/
def stateAW : State := (State.mkIdName 1 "A").AllowNext 2 false

/-- C1 witness machine: started, current = 1, with state 1 in the collection. -/
def machW : SpecMachine :=
  { states := [stateAW], current := some 1, previous := none, enteredAt := 0 }

/-- State A of the claimed timeout scenario: id 1, timeout 100ms with a bound
timeout handler (tag 10), default next 2, bound exit handler (tag 11). -/
def stateA : State :=
  (((State.mkIdName 1 "A").AllowNext 2 true).OnTimeout (some 10) 100).OnExit (some 11)

/-- State B of the claimed timeout scenario: id 2, bound enter handler (tag 12). -/
def stateB : State := (State.mkIdName 2 "B").OnEnter (some 12)

/-- The scenario machine as the source would hold it once started in A:
initialized, current pointing at A, both states in the collection. -/
def machineAB : StateMachine :=
  { _isInitialized := true
    _currentState := some stateA
    _previousState := none
    _states := [stateA, stateB]
    _dotGraphViz := "" }

/-- A machine holding one registered state and not yet initialized. -/
def mWithStates : StateMachine :=
  { StateMachine.new with _states := [State.mkIdName 1 "A"] }

/-! The claims. -/

/-- C1: on a started machine whose current state is in the collection,
`Next(targetId)` succeeds exactly when `targetId` is in the current state's
`allowedNext` or equals the current state's id; for any other `targetId` it
fails with `InvalidTransitionSpec` and the machine (in particular `current`)
is unchanged. -/
theorem next_succeeds_iff (m : SpecMachine) (curId targetId now : Int) (cur : State)
    (hc : m.current = some curId) (hf : SpecMachine.findState m curId = some cur) :
    ((SpecMachine.Next m targetId now).result = none ↔
      targetId ∈ cur._nextStates ∨ targetId = curId) ∧
    (¬(targetId ∈ cur._nextStates ∨ targetId = curId) →
      (SpecMachine.Next m targetId now).result = some SMError.InvalidTransitionSpec ∧
      (SpecMachine.Next m targetId now).machine = m) := by
  by_cases h1 : targetId = curId
  · simp [SpecMachine.Next, hc, hf, h1]
  · by_cases h2 : targetId ∈ cur._nextStates
    · simp [SpecMachine.Next, hc, hf, h1, h2]
    · simp [SpecMachine.Next, hc, hf, h1, h2]

/-- Witness for C1 at the concrete machine `machW` (current = 1, allowed
next = {2}), target 3, now 7. -/
theorem next_succeeds_iff_witness :
    ((SpecMachine.Next machW 3 7).result = none ↔
      (3 : Int) ∈ stateAW._nextStates ∨ (3 : Int) = 1) ∧
    (¬((3 : Int) ∈ stateAW._nextStates ∨ (3 : Int) = 1) →
      (SpecMachine.Next machW 3 7).result = some SMError.InvalidTransitionSpec ∧
      (SpecMachine.Next machW 3 7).machine = machW) :=
  next_succeeds_iff machW 1 3 7 stateAW rfl rfl

/-- C2 (code defect): on the scenario machine — started in A (id 1, timeout
100ms with bound timeout handler, default next B = id 2, bound exit handler) —
the source poll entry point `WaitFor` returns the machine entirely unchanged:
current remains A, previous remains unset, and no handler call site is even
reached (the timeout check and transition are commented out, and `WaitFor`
accepts no timestamp). -/
theorem waitFor_ignores_timeout :
    StateMachine.WaitFor machineAB = machineAB ∧
    (StateMachine.WaitFor machineAB)._currentState = some stateA ∧
    (StateMachine.WaitFor machineAB)._previousState = none ∧
    stateA._id = 1 ∧ stateB._id = 2 ∧
    stateA._timeoutDuration = some 100 ∧ stateA._defaultNextState = some 2 :=
  ⟨rfl, rfl, rfl, rfl, rfl, rfl, rfl⟩

/-- C3 (code defect): `AddState` never inserts into the collection — after
adding id 1 to a fresh machine, `_states` is still empty and the machine is
unchanged, so the final `states` mapping does not contain the added ids. -/
theorem addState_leaves_states_empty :
    ((StateMachine.AddState StateMachine.new 1 "A").1)._states = [] ∧
    (StateMachine.AddState StateMachine.new 1 "A").1 = StateMachine.new :=
  ⟨rfl, rfl⟩

/-- C4 (code defect): a first `AllowNext` call without `isDefault = true` does
NOT set the default — the `size() == 0` test runs after the push and is dead —
so `_defaultNextState` remains unset while `_nextStates` holds the target. -/
theorem allowNext_first_call_sets_no_default :
    ((State.mkIdName 1 "A").AllowNext 2 false)._nextStates = [2] ∧
    ((State.mkIdName 1 "A").AllowNext 2 false)._defaultNextState = none :=
  ⟨rfl, rfl⟩

/-- C5 counterexample: on a fresh machine whose state collection is empty,
`Initialize()` succeeds (returns `true`), contradicting the claim that it
fails with `NoStatesDefined` whenever the collection is empty. -/
theorem init_succeeds_on_empty :
    StateMachine.new._states = [] ∧
    (StateMachine.Initialize StateMachine.new).2 = true :=
  ⟨rfl, rfl⟩

/-- C5 amended: `Initialize()` never fails — it returns `true` even when the
state collection is empty — and after the call the machine is marked
initialized. -/
theorem init_never_fails (m : StateMachine) :
    (StateMachine.Initialize m).2 = true ∧
    ((StateMachine.Initialize m).1)._isInitialized = true := by
  unfold StateMachine.Initialize
  cases h : m._isInitialized <;> simp [h]

/-- C6: a second `Initialize()` call immediately after a first is a complete
no-op — the machine, and in particular its state collection, current state and
previous state, are exactly those after the first call. -/
theorem init_idempotent (m : StateMachine) :
    (StateMachine.Initialize (StateMachine.Initialize m).1).1 = (StateMachine.Initialize m).1 ∧
    ((StateMachine.Initialize (StateMachine.Initialize m).1).1)._states =
      ((StateMachine.Initialize m).1)._states ∧
    ((StateMachine.Initialize (StateMachine.Initialize m).1).1)._currentState =
      ((StateMachine.Initialize m).1)._currentState ∧
    ((StateMachine.Initialize (StateMachine.Initialize m).1).1)._previousState =
      ((StateMachine.Initialize m).1)._previousState := by
  unfold StateMachine.Initialize
  cases h : m._isInitialized <;> simp [h]

/-- C7 counterexample: `OnTimeout` with `msTimeout = 0` (not strictly
positive) still binds the handler and stores the duration — the source cannot
fail — contradicting the claimed `InvalidTimeoutSpec` failure. -/
theorem onTimeout_zero_binds :
    ((State.mkIdName 1 "A").OnTimeout (some 7) 0).OnTimeoutHandler = some 7 ∧
    ((State.mkIdName 1 "A").OnTimeout (some 7) 0)._timeoutDuration = some 0 ∧
    ¬(0 : Int) > 0 :=
  ⟨rfl, rfl, by decide⟩

/-- C7 amended: `OnTimeout(callback, msTimeout)` always succeeds — for every
`msTimeout`, positive or not, it rebinds the timeout handler (replacing any
previous binding) and stores `msTimeout` as the timeout duration. -/
theorem onTimeout_always_binds (s : State) (cb : CallbackHandler) (t : Int) :
    (State.OnTimeout s cb t).OnTimeoutHandler = cb ∧
    (State.OnTimeout s cb t)._timeoutDuration = some t :=
  ⟨rfl, rfl⟩

/-- C8 counterexample: calling `AllowNext(2)` twice stores a duplicate — the
list becomes `[2, 2]`, different from the `[2]` after one call — so a repeated
call does change `allowedNext`, contradicting idempotence. -/
theorem allowNext_repeat_changes :
    (((State.mkIdName 1 "A").AllowNext 2 false).AllowNext 2 false)._nextStates = [2, 2] ∧
    (2 : Int) ∈ ((State.mkIdName 1 "A").AllowNext 2 false)._nextStates ∧
    (((State.mkIdName 1 "A").AllowNext 2 false).AllowNext 2 false)._nextStates ≠
      ((State.mkIdName 1 "A").AllowNext 2 false)._nextStates := by
  refine ⟨rfl, by decide, by decide⟩

/-- C8 amended: `AllowNext(targetId)` always appends `targetId` to
`_nextStates`, whether or not it is already present — duplicates are
stored. -/
theorem allowNext_always_appends (s : State) (t : Int) (d : Bool) :
    (State.AllowNext s t d)._nextStates = s._nextStates ++ [t] := by
  simp only [State.AllowNext]
  split <;> rfl

/-- C9: on a not-yet-initialized machine, `Initialize()` empties the state
collection (every previously added state is removed), and since `WaitFor`
calls `Initialize()` when uninitialized, the first poll does the same. -/
theorem init_clears_states (m : StateMachine) (h : m._isInitialized = false) :
    ((StateMachine.Initialize m).1)._states = [] ∧
    (StateMachine.WaitFor m)._states = [] := by
  unfold StateMachine.WaitFor StateMachine.Initialize
  simp [h]

/-- Witness for C9 at a concrete uninitialized machine holding one state. -/
theorem init_clears_states_witness :
    ((StateMachine.Initialize mWithStates).1)._states = [] ∧
    (StateMachine.WaitFor mWithStates)._states = [] :=
  init_clears_states mWithStates rfl

/-- C10: `WaitFor` never changes the current or previous state and performs no
transition: it is the identity on an initialized machine, and on an
uninitialized one its only effect is `Initialize`'s — setting the flag and
clearing `_states`. -/
theorem waitFor_frame (m : StateMachine) :
    StateMachine.WaitFor m =
      (if m._isInitialized then m
       else { m with _states := [], _isInitialized := true }) ∧
    (StateMachine.WaitFor m)._currentState = m._currentState ∧
    (StateMachine.WaitFor m)._previousState = m._previousState := by
  unfold StateMachine.WaitFor StateMachine.Initialize
  cases h : m._isInitialized <;> simp [h]
